import Mathlib

/-!
Verification development for the xiaoyi-Energy analysis backend.

This file embeds, as executable Lean definitions over exact rational
arithmetic, the parts of the backend that the verified properties talk
about:

* `StockSignal` — the change-point detector and the adaptive zone
  clustering of `app/services/stock_signal_service.py`;
* `Influence` — the ranking and default-result logic of
  `app/services/influence_analyzer.py`;
* `SessionStore` — the session reset of `app/core/session.py`;
* `Streaming` — the control flow and event emission of
  `app/core/streaming_task_processor.py`.

Conventions used throughout:

* Python/NumPy floating point numbers are embedded as rationals; all
  arithmetic the theorems depend on is exact in the source (sums, means,
  divisions, comparisons), except where noted.
* NumPy's `np.std` is the square root of the (population) variance.  The
  code only ever uses the standard deviation inside comparisons
  (`score > threshold`, `score >= max(neighbor_scores)`,
  `score > max_score`) and in the stored `magnitude`.  Because every
  score is nonnegative, each of these comparisons is equivalent to the
  comparison of squares, which is exact rational arithmetic.  The
  embedding therefore carries the squared score
  (`magnitudeSq = diff^2 / variance`) and states the comparisons in
  squared form; the `global_std == 0` guard is exactly `variance = 0`.
* A transcendental value that never feeds back into control flow of a
  verified property (such as the p-value of `scipy.stats.pearsonr` or
  `np.log1p`) is taken as an explicit function parameter, so that
  theorems quantify over it.
-/

namespace Util

/-- Arithmetic mean of a list of rationals, `np.mean`.  Division by zero
in Lean yields `0`; `np.mean` of an empty slice is NaN, and every place
this embedding takes a mean of a possibly-empty list is either guarded in
the source or noted at the use site. -/
def mean (xs : List ℚ) : ℚ := xs.sum / (xs.length : ℚ)

/-- Population variance, the square of `np.std`. -/
def variance (xs : List ℚ) : ℚ := mean (xs.map (fun v => (v - mean xs) ^ 2))

/-- Maximum of a list of rationals, `0` for the empty list (the source
only applies it to nonempty lists, or to lists of nonnegative values
where the default does not change the result). -/
def listMax (xs : List ℚ) : ℚ := xs.foldl max (xs.headD 0)

/-- Insert `x` into a list sorted by `key` in descending order, after
every element whose key is greater than or equal to `key x`.  This is the
insertion step of a stable descending sort, matching Python's stable
`list.sort(key=..., reverse=True)`. -/
def insertDescBy {α : Type} (key : α → ℚ) (x : α) : List α → List α
  | [] => [x]
  | y :: ys => if key y < key x then x :: y :: ys else y :: insertDescBy key x ys

/-- Stable sort by `key` in descending order (elements with equal keys
keep their relative input order), matching Python's
`list.sort(key=..., reverse=True)`. -/
def sortDescBy {α : Type} (key : α → ℚ) (l : List α) : List α :=
  l.foldl (fun acc x => insertDescBy key x acc) []

theorem mean_replicate (n : ℕ) (c : ℚ) (hn : n ≠ 0) :
    mean (List.replicate n c) = c := by
  have hn' : (n : ℚ) ≠ 0 := by exact_mod_cast hn
  simp only [mean, List.sum_replicate, List.length_replicate, nsmul_eq_mul]
  field_simp

theorem variance_replicate (n : ℕ) (c : ℚ) (hn : n ≠ 0) :
    variance (List.replicate n c) = 0 := by
  unfold variance
  rw [List.map_replicate, mean_replicate n c hn]
  simp [mean]

theorem mem_insertDescBy {α : Type} (key : α → ℚ) (x : α) (l : List α) (z : α)
    (hz : z ∈ insertDescBy key x l) : z = x ∨ z ∈ l := by
  induction l with
  | nil => simpa [insertDescBy] using hz
  | cons y ys ih =>
    unfold insertDescBy at hz
    by_cases h : key y < key x
    · rw [if_pos h] at hz
      rcases List.mem_cons.mp hz with h1 | h2
      · exact Or.inl h1
      · exact Or.inr h2
    · rw [if_neg h] at hz
      rcases List.mem_cons.mp hz with h1 | h2
      · exact Or.inr (by simp [h1])
      · rcases ih h2 with h3 | h4
        · exact Or.inl h3
        · exact Or.inr (List.mem_cons_of_mem _ h4)

theorem sortDescBy_mem_aux {α : Type} (key : α → ℚ) (l : List α) :
    ∀ (acc : List α) (z : α),
      z ∈ l.foldl (fun acc x => insertDescBy key x acc) acc → z ∈ acc ∨ z ∈ l := by
  induction l with
  | nil => intro acc z hz; exact Or.inl hz
  | cons x xs ih =>
    intro acc z hz
    rcases ih (insertDescBy key x acc) z hz with h1 | h2
    · rcases mem_insertDescBy key x acc z h1 with h3 | h4
      · exact Or.inr (by simp [h3])
      · exact Or.inl h4
    · exact Or.inr (List.mem_cons_of_mem _ h2)

theorem mem_of_mem_sortDescBy {α : Type} (key : α → ℚ) (l : List α) (z : α)
    (hz : z ∈ sortDescBy key l) : z ∈ l := by
  rcases sortDescBy_mem_aux key l [] z hz with h1 | h2
  · simp at h1
  · exact h2

/-- The list ordering produced by the stable descending sort:
keys never increase along the list. -/
def SortedDesc {α : Type} (key : α → ℚ) (l : List α) : Prop :=
  l.Pairwise (fun a b => key b ≤ key a)

theorem insertDescBy_sorted {α : Type} (key : α → ℚ) (x : α) (l : List α)
    (hl : SortedDesc key l) : SortedDesc key (insertDescBy key x l) := by
  induction l with
  | nil => simp [insertDescBy, SortedDesc]
  | cons y ys ih =>
    unfold insertDescBy
    rcases List.pairwise_cons.mp hl with ⟨hy, hys⟩
    by_cases h : key y < key x
    · rw [if_pos h]
      refine List.pairwise_cons.mpr ⟨?_, hl⟩
      intro z hz
      rcases List.mem_cons.mp hz with h1 | h2
      · simp only [h1]; exact le_of_lt h
      · exact le_trans (hy z h2) (le_of_lt h)
    · rw [if_neg h]
      refine List.pairwise_cons.mpr ⟨?_, ih hys⟩
      intro z hz
      rcases mem_insertDescBy key x ys z hz with h1 | h2
      · simp only [h1]; exact le_of_not_lt h
      · exact hy z h2

theorem sortDescBy_sorted_aux {α : Type} (key : α → ℚ) (l : List α) :
    ∀ acc : List α, SortedDesc key acc →
      SortedDesc key (l.foldl (fun acc x => insertDescBy key x acc) acc) := by
  induction l with
  | nil => intro acc hacc; exact hacc
  | cons x xs ih =>
    intro acc hacc
    exact ih (insertDescBy key x acc) (insertDescBy_sorted key x acc hacc)

theorem sortDescBy_sorted {α : Type} (key : α → ℚ) (l : List α) :
    SortedDesc key (sortDescBy key l) :=
  sortDescBy_sorted_aux key l [] (List.Pairwise.nil)

end Util

namespace StockSignal

open Util

/-!
Embedding of `StockSignalService.detect_change_points`
(`app/services/stock_signal_service.py`, lines 324-434).

The input DataFrame is a list of `(date, y)` rows.  As explained in the
file header, the score `|diff| / global_std` is carried squared
(`magnitudeSq = diff^2 / variance`), and every comparison the Python code
makes on scores is stated in the equivalent squared form.  The stored
`confidence` of a threshold-qualified point,
`min(score / threshold * 0.5 + 0.5, 0.99)`, contains the square root
itself and is not used by any verified property, so the embedding records
`none` for it; the fallback point's constant confidence `0.5` is recorded
exactly.
-/

/-- One detected change point.  `magnitudeSq` is the square of the
`magnitude` (z-score) stored by the source; `isRise` is the source's
`type` field (`"rise"` versus `"drop"`); `isFallback` mirrors the
`is_fallback` key, absent (`false`) on threshold-qualified points. -/
structure ChangePoint where
  date : String
  index : ℕ
  isRise : Bool
  magnitudeSq : ℚ
  diffVal : ℚ
  confidence : Option ℚ
  isFallback : Bool
deriving DecidableEq, Repr

/-- Difference of means at index `i`: mean of the `w` values starting at
`i` minus the mean of the `w` values ending just before `i`
(`np.mean(values[i:i+w]) - np.mean(values[i-w:i])`). -/
def diffAt (values : List ℚ) (w i : ℕ) : ℚ :=
  mean ((values.drop i).take w) - mean ((values.drop (i - w)).take w)

/-- Squared score at index `i`: the square of
`abs(diff) / global_std`, namely `diff^2 / variance`. -/
def scoreSqAt (values : List ℚ) (w : ℕ) (varAll : ℚ) (i : ℕ) : ℚ :=
  (diffAt values w i) ^ 2 / varAll

/-- The source's `score > threshold`, in squared form: the score is the
nonnegative square root of `sSq`, so for a negative threshold the
comparison always holds, and otherwise it is equivalent to
`threshold^2 < sSq`. -/
def scoreGtThreshold (sSq t : ℚ) : Bool :=
  decide (t < 0) || decide (t ^ 2 < sSq)

/-- Neighborhood indices `range(max(w, i-2), min(n-w, i+3))` without `i`
itself, used for the local-maximum check. -/
def neighborIdx (w n i : ℕ) : List ℕ :=
  (List.range' (max w (i - 2)) (min (n - w) (i + 3) - max w (i - 2))).filter
    (fun j => j ≠ i)

/-- The source's local-maximum check:
`not neighbor_scores or score >= max(neighbor_scores)` (in squared form). -/
def isLocalMax (values : List ℚ) (w n : ℕ) (varAll : ℚ) (i : ℕ) : Bool :=
  let ns := (neighborIdx w n i).map (scoreSqAt values w varAll)
  ns.isEmpty || decide (listMax ns ≤ scoreSqAt values w varAll i)

/-- The change-point record appended by the main loop. -/
def mainPointAt (dates : List String) (values : List ℚ) (w : ℕ) (varAll : ℚ)
    (i : ℕ) : ChangePoint :=
  { date := dates.getD i ""
    index := i
    isRise := decide (0 < diffAt values w i)
    magnitudeSq := scoreSqAt values w varAll i
    diffVal := diffAt values w i
    confidence := none
    isFallback := false }

/-- The main sliding-window loop over `range(w, n-w)`: keep an index when
its score exceeds the threshold and it is a local maximum. -/
def mainCandidates (dates : List String) (values : List ℚ) (w n : ℕ)
    (varAll t : ℚ) : List ChangePoint :=
  (List.range' w (n - 2 * w)).filterMap fun i =>
    if scoreGtThreshold (scoreSqAt values w varAll i) t
        && isLocalMax values w n varAll i then
      some (mainPointAt dates values w varAll i)
    else none

/-- The fallback scan: fold over the candidate indices keeping the
running maximum squared score together with the best index and its
`diff`; the source's `best_idx = -1` sentinel is the `none` state.
The source's strict `score > max_score` is the squared `m < scoreSqAt i`. -/
def fallbackScan (values : List ℚ) (w : ℕ) (varAll : ℚ) :
    List ℕ → ℚ → Option (ℕ × ℚ) → ℚ × Option (ℕ × ℚ)
  | [], m, best => (m, best)
  | i :: is, m, best =>
    if m < scoreSqAt values w varAll i then
      fallbackScan values w varAll is (scoreSqAt values w varAll i)
        (some (i, diffAt values w i))
    else
      fallbackScan values w varAll is m best

/-- The change-point record appended by the fallback branch: confidence
is the literal `0.5` and the `is_fallback` flag is set. -/
def fallbackPoint (dates : List String) (m : ℚ) (i : ℕ) (d : ℚ) : ChangePoint :=
  { date := dates.getD i ""
    index := i
    isRise := decide (0 < d)
    magnitudeSq := m
    diffVal := d
    confidence := some (1 / 2)
    isFallback := true }

/-- The date column as the detector reads it:
`df["date"].astype(str).str[:10]`, the date strings truncated to 10
characters. -/
def truncDates (df : List (String × ℚ)) : List String :=
  df.map (fun r => r.1.take 10)

/-- The list appended by the fallback branch, from the final state of the
fallback scan: a single fallback point when the scan found a best index
(`best_idx != -1`), nothing otherwise. -/
def fallbackResult (dates : List String) (r : ℚ × Option (ℕ × ℚ)) :
    List ChangePoint :=
  match r with
  | (m, some (i, d)) => [fallbackPoint dates m i d]
  | (_, none) => []

/-- Embedding of `StockSignalService.detect_change_points`.

The leading `window_size = 0` branch makes the source's NaN behaviour
explicit: with a zero window every `np.mean` is over an empty slice and
yields NaN, every NaN comparison is false, so the Python code appends no
point (neither in the main loop nor in the fallback scan) and returns the
empty list. -/
def detect_change_points (df : List (String × ℚ)) (window_size : ℕ)
    (threshold : ℚ) : List ChangePoint :=
  if window_size = 0 then []
  else if df.length < window_size * 2 then []
  else
    let values := df.map Prod.snd
    let dates := truncDates df
    let n := values.length
    let varAll := variance values
    if varAll = 0 then []
    else
      let pts := sortDescBy (fun c => c.magnitudeSq)
        (mainCandidates dates values window_size n varAll threshold)
      let pts :=
        if pts.isEmpty && decide ((1 : ℚ) / 2 < threshold) then
          fallbackResult dates
            (fallbackScan values window_size varAll
              (List.range' window_size (n - 2 * window_size)) 0 none)
        else pts
      pts.take 5

end StockSignal

namespace StockSignal

/-- Scenario A input: a 40-point series constant at 100 on indices 0-19
and constant at the 50% higher level 150 on indices 20-39, with the index
rendered as the date string. -/
def seriesA : List (String × ℚ) :=
  (List.range 40).map (fun i => (toString i, if i < 20 then (100 : ℚ) else 150))

/-- Alternating 0/1 series of length 8: its period equals the window
size 2, so every difference of window means is zero while the global
variance is not. -/
def seriesAlt : List (String × ℚ) :=
  [("0", 0), ("1", 1), ("2", 0), ("3", 1), ("4", 0), ("5", 1), ("6", 0), ("7", 1)]

/-- A 4-point step series used to witness the fallback behaviour:
flat at 0 for two points, then flat at 1. -/
def seriesStep : List (String × ℚ) :=
  [("0", 0), ("1", 0), ("2", 1), ("3", 1)]

end StockSignal

/-- C5: on the 40-point series constant at 100 on indices 0-19 and at the
50% higher level 150 on indices 20-39, with window size 5 and threshold
1.3, detect_change_points returns exactly one change point, at index 20,
of type rise (the squared z-score of the shift is 4, i.e. the score is 2,
and the raw mean difference is 50). -/
theorem detect_scenarioA :
    StockSignal.detect_change_points StockSignal.seriesA 5 (13 / 10) =
      [{ date := "20", index := 20, isRise := true, magnitudeSq := 4,
         diffVal := 50, confidence := none, isFallback := false }] := by
  decide!

/-- C6: on a constant series of any length, with any window size and any
threshold, detect_change_points returns the empty list: either the length
guard fires, or the global variance is zero and the corresponding guard
(the source's `global_std == 0` check) returns before any division by the
standard deviation is performed. -/
theorem detect_constant_series (n w : ℕ) (t : ℚ) (d : String) (c : ℚ) :
    StockSignal.detect_change_points (List.replicate n (d, c)) w t = [] := by
  unfold StockSignal.detect_change_points
  by_cases hw : w = 0
  · rw [if_pos hw]
  · rw [if_neg hw]
    by_cases hn : (List.replicate n (d, c)).length < w * 2
    · rw [if_pos hn]
    · rw [if_neg hn]
      have hmap : (List.replicate n (d, c)).map Prod.snd = List.replicate n c := by
        simp
      have hn0 : n ≠ 0 := by
        intro h
        subst h
        simp at hn
        omega
      simp [hmap, Util.variance_replicate n c hn0]

namespace StockSignal

theorem fallbackScan_spec (values : List ℚ) (w : ℕ) (varAll : ℚ) :
    ∀ (idxs : List ℕ) (m : ℚ) (b : Option (ℕ × ℚ)),
      (fallbackScan values w varAll idxs m b = (m, b) ∧
        ∀ i ∈ idxs, scoreSqAt values w varAll i ≤ m) ∨
      (∃ j ∈ idxs,
        (fallbackScan values w varAll idxs m b).2 = some (j, diffAt values w j) ∧
        (fallbackScan values w varAll idxs m b).1 = scoreSqAt values w varAll j ∧
        m < scoreSqAt values w varAll j ∧
        ∀ i ∈ idxs, scoreSqAt values w varAll i ≤ scoreSqAt values w varAll j) := by
  intro idxs
  induction idxs with
  | nil =>
    intro m b
    left
    exact ⟨rfl, by simp⟩
  | cons i is ih =>
    intro m b
    by_cases h : m < scoreSqAt values w varAll i
    · have hstep : fallbackScan values w varAll (i :: is) m b =
        fallbackScan values w varAll is (scoreSqAt values w varAll i)
          (some (i, diffAt values w i)) := by
        simp only [fallbackScan, if_pos h]
      rcases ih (scoreSqAt values w varAll i) (some (i, diffAt values w i)) with
        ⟨heq, hle⟩ | ⟨j, hj, h2, h3, h4, h5⟩
      · right
        refine ⟨i, by simp, ?_, ?_, h, ?_⟩
        · rw [hstep, heq]
        · rw [hstep, heq]
        · intro k hk
          rcases List.mem_cons.mp hk with h1 | h2
          · simp [h1]
          · exact hle k h2
      · right
        refine ⟨j, List.mem_cons_of_mem _ hj, ?_, ?_, lt_trans h h4, ?_⟩
        · rw [hstep]; exact h2
        · rw [hstep]; exact h3
        · intro k hk
          rcases List.mem_cons.mp hk with h1 | h2
          · rw [h1]; exact le_of_lt h4
          · exact h5 k h2
    · have hstep : fallbackScan values w varAll (i :: is) m b =
        fallbackScan values w varAll is m b := by
        simp only [fallbackScan, if_neg h]
      rcases ih m b with ⟨heq, hle⟩ | ⟨j, hj, h2, h3, h4, h5⟩
      · left
        refine ⟨by rw [hstep, heq], ?_⟩
        intro k hk
        rcases List.mem_cons.mp hk with h1 | h2
        · rw [h1]; exact le_of_not_lt h
        · exact hle k h2
      · right
        refine ⟨j, List.mem_cons_of_mem _ hj, ?_, ?_, h4, ?_⟩
        · rw [hstep]; exact h2
        · rw [hstep]; exact h3
        · intro k hk
          rcases List.mem_cons.mp hk with h1 | h2
          · rw [h1]; exact le_of_lt (lt_of_le_of_lt (le_of_not_lt h) h4)
          · exact h5 k h2

theorem mem_mainCandidates (dates : List String) (values : List ℚ) (w n : ℕ)
    (varAll t : ℚ) (cp : ChangePoint)
    (hcp : cp ∈ mainCandidates dates values w n varAll t) :
    ∃ i ∈ List.range' w (n - 2 * w),
      cp = mainPointAt dates values w varAll i ∧
      scoreGtThreshold (scoreSqAt values w varAll i) t = true := by
  rcases List.mem_filterMap.mp hcp with ⟨i, hi, hsome⟩
  by_cases hcond : (scoreGtThreshold (scoreSqAt values w varAll i) t
      && isLocalMax values w n varAll i) = true
  · rw [if_pos hcond] at hsome
    have h1 : scoreGtThreshold (scoreSqAt values w varAll i) t = true :=
      (Bool.and_eq_true _ _ ▸ hcond).1
    exact ⟨i, hi, (Option.some.injEq _ _ ▸ hsome).symm, h1⟩
  · rw [if_neg hcond] at hsome
    exact absurd hsome (by simp)

theorem mainCandidates_eq_nil (dates : List String) (values : List ℚ) (w n : ℕ)
    (varAll t : ℚ) (h0t : 0 ≤ t)
    (hall : ∀ i ∈ List.range' w (n - 2 * w),
      scoreSqAt values w varAll i ≤ t ^ 2) :
    mainCandidates dates values w n varAll t = [] := by
  apply List.filterMap_eq_nil_iff.mpr
  intro i hi
  have h1 : scoreGtThreshold (scoreSqAt values w varAll i) t = false := by
    unfold scoreGtThreshold
    simp only [Bool.or_eq_false_iff, decide_eq_false_iff_not, not_lt]
    exact ⟨h0t, hall i hi⟩
  simp [h1]

end StockSignal

/-- C3: for every input series of length at least `2 * w` and every
threshold `t`, every change point returned by detect_change_points has
its index in the interval from `w` (inclusive) to `length - w`
(exclusive); every returned point not flagged as fallback has score
strictly greater than `t` (in squared form: `t < 0`, in which case any
nonnegative score exceeds it, or `t ^ 2 < magnitudeSq`); the returned
list is sorted by magnitude descending (squared magnitudes are ordered
exactly as magnitudes); and it has at most 5 entries. -/
theorem detect_change_points_shape (df : List (String × ℚ)) (w : ℕ) (t : ℚ)
    (hn : 2 * w ≤ df.length) :
    (∀ cp ∈ StockSignal.detect_change_points df w t,
        (w ≤ cp.index ∧ cp.index < df.length - w) ∧
        (cp.isFallback = false → t < 0 ∨ t ^ 2 < cp.magnitudeSq)) ∧
    Util.SortedDesc (fun c => c.magnitudeSq)
      (StockSignal.detect_change_points df w t) ∧
    (StockSignal.detect_change_points df w t).length ≤ 5 := by
  by_cases hw : w = 0
  · simp only [StockSignal.detect_change_points, if_pos hw]
    exact ⟨by simp, List.Pairwise.nil, by simp⟩
  by_cases hlen : df.length < w * 2
  · simp only [StockSignal.detect_change_points, if_neg hw, if_pos hlen]
    exact ⟨by simp, List.Pairwise.nil, by simp⟩
  by_cases hvar : Util.variance (df.map Prod.snd) = 0
  · simp only [StockSignal.detect_change_points, if_neg hw, if_neg hlen,
      if_pos hvar]
    exact ⟨by simp, List.Pairwise.nil, by simp⟩
  simp only [StockSignal.detect_change_points, if_neg hw, if_neg hlen,
    if_neg hvar]
  have hnlen : (df.map Prod.snd).length = df.length := List.length_map _ _
  have hbound : ∀ i ∈ List.range' w ((df.map Prod.snd).length - 2 * w),
      w ≤ i ∧ i < df.length - w := by
    intro i hi
    have h2 := List.mem_range'_1.mp hi
    omega
  have hmemM : ∀ cp ∈ Util.sortDescBy (fun c => c.magnitudeSq)
      (StockSignal.mainCandidates (StockSignal.truncDates df) (df.map Prod.snd) w
        (df.map Prod.snd).length (Util.variance (df.map Prod.snd)) t),
      (w ≤ cp.index ∧ cp.index < df.length - w) ∧
      (cp.isFallback = false → t < 0 ∨ t ^ 2 < cp.magnitudeSq) := by
    intro cp hcp
    have hcp2 := Util.mem_of_mem_sortDescBy _ _ _ hcp
    rcases StockSignal.mem_mainCandidates _ _ _ _ _ _ _ hcp2 with ⟨i, hi, hcpEq, hgt⟩
    subst hcpEq
    refine ⟨hbound i hi, ?_⟩
    intro _
    unfold StockSignal.scoreGtThreshold at hgt
    rcases Bool.or_eq_true _ _ ▸ hgt with h1 | h2
    · exact Or.inl (of_decide_eq_true h1)
    · exact Or.inr (of_decide_eq_true h2)
  by_cases hfb : ((Util.sortDescBy (fun c => c.magnitudeSq)
      (StockSignal.mainCandidates (StockSignal.truncDates df) (df.map Prod.snd) w
        (df.map Prod.snd).length (Util.variance (df.map Prod.snd)) t)).isEmpty
      && decide ((1 : ℚ) / 2 < t)) = true
  · rw [if_pos hfb]
    rcases hfs : StockSignal.fallbackScan (df.map Prod.snd) w
        (Util.variance (df.map Prod.snd))
        (List.range' w ((df.map Prod.snd).length - 2 * w)) 0 none with ⟨m, b⟩
    cases b with
    | none =>
      simp only [StockSignal.fallbackResult]
      exact ⟨by simp, List.Pairwise.nil, by simp⟩
    | some jd =>
      rcases jd with ⟨j', d'⟩
      simp only [StockSignal.fallbackResult]
      rcases StockSignal.fallbackScan_spec (df.map Prod.snd) w
          (Util.variance (df.map Prod.snd))
          (List.range' w ((df.map Prod.snd).length - 2 * w)) 0 none with
        ⟨heq, _⟩ | ⟨j, hj, h2, _, _, _⟩
      · rw [hfs] at heq
        exact absurd (congrArg Prod.snd heq) (by simp)
      · rw [hfs] at h2
        have hj' : j' = j := by
          simp only [Option.some.injEq, Prod.mk.injEq] at h2
          exact h2.1
        have hjmem : j' ∈ List.range' w ((df.map Prod.snd).length - 2 * w) := by
          rw [hj']; exact hj
        refine ⟨?_, ?_, by simp⟩
        · intro cp hcp
          have hcp2 := List.mem_of_mem_take hcp
          rcases List.mem_singleton.mp hcp2 with rfl
          exact ⟨hbound j' hjmem,
            fun hff => absurd hff (by simp [StockSignal.fallbackPoint])⟩
        · exact List.Pairwise.sublist (List.take_sublist _ _)
            (List.pairwise_singleton _ _)
  · rw [if_neg hfb]
    refine ⟨?_, ?_, List.length_take_le _ _⟩
    · intro cp hcp
      exact hmemM cp (List.mem_of_mem_take hcp)
    · exact List.Pairwise.sublist (List.take_sublist _ _)
        (Util.sortDescBy_sorted _ _)

/-- Witness for the C3 theorem at the Scenario A series with window 5 and
threshold 1.3. -/
theorem detect_change_points_shape_witness :
    2 * 5 ≤ StockSignal.seriesA.length ∧
    ((∀ cp ∈ StockSignal.detect_change_points StockSignal.seriesA 5 (13 / 10),
        (5 ≤ cp.index ∧ cp.index < StockSignal.seriesA.length - 5) ∧
        (cp.isFallback = false →
          (13 : ℚ) / 10 < 0 ∨ ((13 : ℚ) / 10) ^ 2 < cp.magnitudeSq)) ∧
      Util.SortedDesc (fun c => c.magnitudeSq)
        (StockSignal.detect_change_points StockSignal.seriesA 5 (13 / 10)) ∧
      (StockSignal.detect_change_points StockSignal.seriesA 5 (13 / 10)).length ≤ 5) :=
  ⟨by decide, detect_change_points_shape StockSignal.seriesA 5 (13 / 10) (by decide)⟩

/-- C4, counterexample: on the alternating 0/1 series of length 8 (period
equal to the window size 2), every window mean difference is zero, so no
score exceeds the threshold 1.5 even though the length is at least `2 * w`
and the global variance is nonzero; yet detect_change_points returns the
empty list, not a single fallback point — the fallback scan only replaces
a best index when its score is strictly positive, so `best_idx` stays
`-1`. -/
theorem detect_fallback_counterexample :
    2 * 2 ≤ StockSignal.seriesAlt.length ∧
    Util.variance (StockSignal.seriesAlt.map Prod.snd) ≠ 0 ∧
    (∀ i ∈ List.range' 2 (StockSignal.seriesAlt.length - 2 * 2),
      StockSignal.scoreSqAt (StockSignal.seriesAlt.map Prod.snd) 2
        (Util.variance (StockSignal.seriesAlt.map Prod.snd)) i ≤ ((3 : ℚ) / 2) ^ 2) ∧
    StockSignal.detect_change_points StockSignal.seriesAlt 2 (3 / 2) = [] := by
  decide!

/-- C4, amended: if the window is positive, the global variance nonzero,
the threshold strictly greater than 0.5 (the source's fallback only runs
under `threshold > 0.5`), no index's score exceeds the threshold, and at
least one index has strictly positive score (otherwise the scan's strict
`score > max_score` never fires and the sentinel `best_idx = -1`
survives), then detect_change_points returns exactly one point: a
maximal-score index flagged as fallback with confidence exactly 0.5. -/
theorem detect_fallback_single (df : List (String × ℚ)) (w : ℕ) (t : ℚ)
    (hw : 0 < w)
    (hv : Util.variance (df.map Prod.snd) ≠ 0)
    (ht : 1 / 2 < t)
    (hall : ∀ i ∈ List.range' w (df.length - 2 * w),
      StockSignal.scoreSqAt (df.map Prod.snd) w
        (Util.variance (df.map Prod.snd)) i ≤ t ^ 2)
    (hpos : ∃ i ∈ List.range' w (df.length - 2 * w),
      0 < StockSignal.scoreSqAt (df.map Prod.snd) w
        (Util.variance (df.map Prod.snd)) i) :
    ∃ cp, StockSignal.detect_change_points df w t = [cp] ∧
      cp.isFallback = true ∧
      cp.confidence = some (1 / 2) ∧
      cp.index ∈ List.range' w (df.length - 2 * w) ∧
      cp.magnitudeSq = StockSignal.scoreSqAt (df.map Prod.snd) w
        (Util.variance (df.map Prod.snd)) cp.index ∧
      ∀ i ∈ List.range' w (df.length - 2 * w),
        StockSignal.scoreSqAt (df.map Prod.snd) w
          (Util.variance (df.map Prod.snd)) i ≤ cp.magnitudeSq := by
  have hnlen : (df.map Prod.snd).length = df.length := List.length_map _ _
  rcases hpos with ⟨i0, hi0, hpos0⟩
  have hi0b := List.mem_range'_1.mp hi0
  have hlen : ¬ df.length < w * 2 := by omega
  have hw0 : ¬ w = 0 := by omega
  have hrange : List.range' w ((df.map Prod.snd).length - 2 * w) =
      List.range' w (df.length - 2 * w) := by rw [hnlen]
  have hmain : StockSignal.mainCandidates (StockSignal.truncDates df) (df.map Prod.snd)
      w (df.map Prod.snd).length (Util.variance (df.map Prod.snd)) t = [] := by
    apply StockSignal.mainCandidates_eq_nil
    · exact le_of_lt (lt_trans (by norm_num) ht)
    · rw [hrange]; exact hall
  simp only [StockSignal.detect_change_points, if_neg hw0, if_neg hlen,
    if_neg hv, hmain]
  have hsortnil : Util.sortDescBy
      (fun c : StockSignal.ChangePoint => c.magnitudeSq) [] = [] := rfl
  rw [hsortnil]
  have hcond : (List.isEmpty ([] : List StockSignal.ChangePoint)
      && decide ((1 : ℚ) / 2 < t)) = true := by
    simp only [List.isEmpty_nil, Bool.true_and, decide_eq_true_eq]
    exact ht
  rw [if_pos hcond]
  rcases StockSignal.fallbackScan_spec (df.map Prod.snd) w
      (Util.variance (df.map Prod.snd))
      (List.range' w ((df.map Prod.snd).length - 2 * w)) 0 none with
    ⟨_, hle⟩ | ⟨j, hj, h2, h3, _, h5⟩
  · exfalso
    have := hle i0 (by rw [hrange]; exact hi0)
    exact absurd (lt_of_lt_of_le hpos0 this) (lt_irrefl 0)
  · rcases hfs : StockSignal.fallbackScan (df.map Prod.snd) w
        (Util.variance (df.map Prod.snd))
        (List.range' w ((df.map Prod.snd).length - 2 * w)) 0 none with ⟨m, b⟩
    rw [hfs] at h2 h3
    simp only at h2 h3
    subst h2
    refine ⟨StockSignal.fallbackPoint (StockSignal.truncDates df) m j
        (StockSignal.diffAt (df.map Prod.snd) w j), ?_, rfl, rfl, ?_, ?_, ?_⟩
    · simp [StockSignal.fallbackResult]
    · show j ∈ List.range' w (df.length - 2 * w)
      rw [← hrange]; exact hj
    · show m = StockSignal.scoreSqAt (df.map Prod.snd) w
        (Util.variance (df.map Prod.snd)) j
      exact h3
    · intro i hi
      show StockSignal.scoreSqAt (df.map Prod.snd) w
        (Util.variance (df.map Prod.snd)) i ≤ m
      rw [h3]
      exact h5 i (by rw [hrange]; exact hi)

/-- Witness for the C4 amended theorem at the 4-point step series with
window 1 and threshold 3. -/
theorem detect_fallback_single_witness :
    ((0 < 1) ∧
      Util.variance (StockSignal.seriesStep.map Prod.snd) ≠ 0 ∧
      ((1 : ℚ) / 2 < 3) ∧
      (∀ i ∈ List.range' 1 (StockSignal.seriesStep.length - 2 * 1),
        StockSignal.scoreSqAt (StockSignal.seriesStep.map Prod.snd) 1
          (Util.variance (StockSignal.seriesStep.map Prod.snd)) i ≤ (3 : ℚ) ^ 2) ∧
      (∃ i ∈ List.range' 1 (StockSignal.seriesStep.length - 2 * 1),
        0 < StockSignal.scoreSqAt (StockSignal.seriesStep.map Prod.snd) 1
          (Util.variance (StockSignal.seriesStep.map Prod.snd)) i)) ∧
    (∃ cp, StockSignal.detect_change_points StockSignal.seriesStep 1 3 = [cp] ∧
      cp.isFallback = true ∧
      cp.confidence = some (1 / 2) ∧
      cp.index ∈ List.range' 1 (StockSignal.seriesStep.length - 2 * 1) ∧
      cp.magnitudeSq = StockSignal.scoreSqAt (StockSignal.seriesStep.map Prod.snd) 1
        (Util.variance (StockSignal.seriesStep.map Prod.snd)) cp.index ∧
      ∀ i ∈ List.range' 1 (StockSignal.seriesStep.length - 2 * 1),
        StockSignal.scoreSqAt (StockSignal.seriesStep.map Prod.snd) 1
          (Util.variance (StockSignal.seriesStep.map Prod.snd)) i ≤ cp.magnitudeSq) :=
  ⟨⟨by decide, by decide!, by decide!, by decide!, by decide!⟩,
    detect_fallback_single StockSignal.seriesStep 1 3 (by decide) (by decide!)
      (by decide!) (by decide!) (by decide!)⟩

namespace Util

theorem filter_insertDescBy {α : Type} (key : α → ℚ) (c : ℚ) (x : α)
    (l : List α) (hl : SortedDesc key l) :
    (insertDescBy key x l).filter (fun z => decide (key z = c)) =
      l.filter (fun z => decide (key z = c)) ++
        (if key x = c then [x] else []) := by
  induction l with
  | nil =>
    by_cases hx : key x = c
    · simp [insertDescBy, hx]
    · simp [insertDescBy, hx]
  | cons y ys ih =>
    rcases List.pairwise_cons.mp hl with ⟨hy, hys⟩
    unfold insertDescBy
    by_cases h : key y < key x
    · rw [if_pos h]
      by_cases hx : key x = c
      · have hnil : (y :: ys).filter (fun z => decide (key z = c)) = [] := by
          apply List.filter_eq_nil_iff.mpr
          intro z hz
          simp only [decide_eq_true_eq]
          intro hzc
          have hzy : key z ≤ key y := by
            rcases List.mem_cons.mp hz with h1 | h2
            · rw [h1]
            · exact hy z h2
          rw [hzc, ← hx] at hzy
          exact absurd (lt_of_lt_of_le h hzy) (lt_irrefl _)
        rw [List.filter_cons_of_pos (by simp [hx]), hnil, if_pos hx]
        rfl
      · rw [List.filter_cons_of_neg (by simp [hx]), if_neg hx,
          List.append_nil]
    · rw [if_neg h]
      by_cases hyc : key y = c
      · rw [List.filter_cons_of_pos (by simp [hyc]),
          List.filter_cons_of_pos (by simp [hyc]), ih hys,
          List.cons_append]
      · rw [List.filter_cons_of_neg (by simp [hyc]),
          List.filter_cons_of_neg (by simp [hyc]), ih hys]

theorem filter_sortDescBy_aux {α : Type} (key : α → ℚ) (c : ℚ) (l : List α) :
    ∀ acc : List α, SortedDesc key acc →
      (l.foldl (fun a x => insertDescBy key x a) acc).filter
          (fun z => decide (key z = c)) =
        acc.filter (fun z => decide (key z = c)) ++
          l.filter (fun z => decide (key z = c)) := by
  induction l with
  | nil => intro acc _; simp
  | cons x xs ih =>
    intro acc hacc
    have h1 := ih (insertDescBy key x acc) (insertDescBy_sorted key x acc hacc)
    rw [List.foldl_cons, h1, filter_insertDescBy key c x acc hacc]
    by_cases hx : key x = c
    · rw [if_pos hx, List.filter_cons_of_pos (by simp [hx]),
        List.append_assoc]
      rfl
    · rw [if_neg hx, List.filter_cons_of_neg (by simp [hx]),
        List.append_nil]

/-- Stability of the descending sort: the elements whose key equals any
given value appear in the output in exactly their input order. -/
theorem filter_sortDescBy {α : Type} (key : α → ℚ) (c : ℚ) (l : List α) :
    (sortDescBy key l).filter (fun z => decide (key z = c)) =
      l.filter (fun z => decide (key z = c)) := by
  have h := filter_sortDescBy_aux key c l [] List.Pairwise.nil
  simpa [sortDescBy] using h

end Util

namespace Influence

/-!
Embedding of `InfluenceAnalyzer` (`app/services/influence_analyzer.py`).

The analyzer merges the power frame with the weather frame on the date
column, derives the four factor columns (temperature, humidity, season,
industry structure — in that declaration order), and either returns a
fixed default result when fewer than 10 merged points exist, or computes
correlations, an influence ranking and a summary.

External or transcendental pieces are explicit function parameters:
`pearson` stands for `scipy.stats.pearsonr` (its correlation and p-value
are irrational functions of the data), `dayOfYear` for the calendar
lookup `dt.dayofyear`, and `summarize` for `_generate_summary`, which
calls an LLM agent with a templated fallback; it receives the merged
frame and the ranking, the data `_generate_summary` derives its text
from.  Dates travel as strings
(the source normalizes them to timezone-naive timestamps before
comparing); NaN cells produced by the left join are `Option.none`.
`round(x, 4)` is embedded as rational rounding of `x * 10^4` (Python
rounds float ties to even; the difference is confined to exact ties,
which no verified property depends on).
-/

/-- One per-date entry of a factor's `data` list: date, target power
value, factor value (`none` when the factor cell is NaN). -/
structure DataPoint where
  date : String
  power : ℚ
  factor_value : Option ℚ
deriving DecidableEq, Repr

/-- Per-factor analysis result, `factors_result[name]`. -/
structure FactorResult where
  correlation : ℚ
  influence_score : ℚ
  data : List DataPoint
deriving DecidableEq, Repr

/-- One entry of the influence ranking. -/
structure RankEntry where
  factor : String
  factor_name_cn : String
  influence_score : ℚ
  correlation : ℚ
deriving DecidableEq, Repr

/-- The `factor_names_map` of `_generate_ranking`, defaulting to the
factor's own name. -/
def factorNameCn (name : String) : String :=
  if name = "temperature" then "日平均气温"
  else if name = "humidity" then "日平均湿度"
  else if name = "season" then "季节位置"
  else if name = "industry_structure" then "城市工业结构"
  else name

/-- The ranking entry built for one factor of the (insertion-ordered)
`factors_result` dictionary. -/
def rankEntryOf (nr : String × FactorResult) : RankEntry :=
  { factor := nr.1
    factor_name_cn := factorNameCn nr.1
    influence_score := nr.2.influence_score
    correlation := nr.2.correlation }

/-- Embedding of `InfluenceAnalyzer._generate_ranking`: list the factors
in their declaration (dictionary-insertion) order, then stable-sort by
influence score descending (`list.sort(key=..., reverse=True)`). -/
def generate_ranking (factors_result : List (String × FactorResult)) :
    List RankEntry :=
  Util.sortDescBy (fun e => e.influence_score) (factors_result.map rankEntryOf)

/-- One merged row after the left join of the power frame with the
weather frame on the date: `none` weather cells are the NaN cells pandas
produces for unmatched dates. -/
structure MergedRow where
  ds : String
  y : ℚ
  temperature : Option ℚ
  humidity : Option ℚ
deriving DecidableEq, Repr

/-- The left merge `pd.merge(power, weather, left_on='ds',
right_on='date', how='left')`: every power row pairs with each weather
row carrying the same date, or with NaN weather cells when none
matches. -/
def mergeRows (power : List (String × ℚ)) (weather : List (String × ℚ × ℚ)) :
    List MergedRow :=
  (power.map (fun p =>
    let ms := weather.filter (fun wr => wr.1 = p.1)
    if ms.isEmpty then [{ ds := p.1, y := p.2, temperature := none, humidity := none }]
    else ms.map (fun wr =>
      { ds := p.1, y := p.2, temperature := some wr.2.1, humidity := some wr.2.2 }))).flatten

/-- The non-NaN entries of an optional column. -/
def somes (xs : List (Option ℚ)) : List ℚ := xs.filterMap id

/-- Column-wise `fillna(column.mean())`: when the column has at least one
non-NaN entry, NaN cells become the mean of the non-NaN entries; when the
column is entirely NaN its mean is NaN and `fillna` changes nothing. -/
def fillnaMean (xs : List (Option ℚ)) : List (Option ℚ) :=
  if (somes xs).isEmpty then xs
  else xs.map (fun x => some (x.getD (Util.mean (somes xs))))

/-- The `significance_weight` of `_calculate_factor_influence`:
`1.0 - min(p_value, 0.1) / 0.1`, mapping p-values 0..0.1 onto
weights 1..0. -/
def significanceWeight (p : ℚ) : ℚ := 1 - min p (1 / 10) / (1 / 10)

/-- Embedding of `InfluenceAnalyzer._calculate_factor_influence` for one
factor: drop the pairs whose factor cell is NaN, return (0, 0) when fewer
than two pairs remain, treat a constant column (zero variance) as
correlation 0 with p-value 1, and otherwise score
`abs(r) * (0.7 + 0.3 * significance_weight)` with `(r, p)` given by the
`pearson` parameter (scipy.stats.pearsonr).  The power column of this
embedding carries no NaN, so the joint NaN mask reduces to the factor's
mask. -/
def calculateFactorInfluence (pearson : List ℚ → List ℚ → ℚ × ℚ)
    (power : List ℚ) (factor : List (Option ℚ)) : ℚ × ℚ :=
  if power.length < 2 || factor.length < 2 then (0, 0)
  else
    let pairs := (power.zip factor).filterMap
      (fun pf => pf.2.map (fun v => (pf.1, v)))
    if pairs.length < 2 then (0, 0)
    else
      let pc := pairs.map Prod.fst
      let fc := pairs.map Prod.snd
      let rp :=
        if Util.variance fc = 0 then ((0 : ℚ), (1 : ℚ))
        else if Util.variance pc = 0 then ((0 : ℚ), (1 : ℚ))
        else pearson pc fc
      (rp.1, |rp.1| * (7 / 10 + 3 / 10 * significanceWeight rp.2))

/-- Rounding to four decimal places, `round(x, 4)` (see the section
comment for the float tie-breaking caveat). -/
def round4 (x : ℚ) : ℚ := (round (x * 10000) : ℤ) / 10000

/-- Embedding of `InfluenceAnalyzer._calculate_correlation_matrix`: the
5x5 Pearson matrix over power and the four factors, 1 on the diagonal,
0 whenever fewer than two jointly non-NaN pairs exist or either masked
column is constant. -/
def correlationMatrix (pearson : List ℚ → List ℚ → ℚ × ℚ)
    (cols : List (List (Option ℚ))) : List (List ℚ) :=
  cols.enum.map (fun ic =>
    cols.enum.map (fun jc =>
      if ic.1 = jc.1 then 1
      else
        let pairs := (ic.2.zip jc.2).filterMap
          (fun ab => ab.1.bind (fun a => ab.2.map (fun b => (a, b))))
        if pairs.length < 2 then 0
        else if Util.variance (pairs.map Prod.fst) = 0 then 0
        else if Util.variance (pairs.map Prod.snd) = 0 then 0
        else (pearson (pairs.map Prod.fst) (pairs.map Prod.snd)).1))

/-- The full analysis result dictionary.  `overall_score` is `none` on
the default result, whose dictionary carries no such key. -/
structure InfluenceResult where
  factors : List (String × FactorResult)
  correlation_matrix : List (List ℚ)
  ranking : List RankEntry
  time_range : String × String
  summary : String
  overall_score : Option ℚ
deriving DecidableEq, Repr

/-- Embedding of `InfluenceAnalyzer._get_default_result`: every factor
with correlation 0.0, influence score 0.0 and empty data, an all-ones
5x5 matrix (`[[1.0] * 5] * 5`), an empty ranking, empty time range and
the fixed low-confidence summary. -/
def defaultResult : InfluenceResult :=
  { factors :=
      [("temperature", { correlation := 0, influence_score := 0, data := [] }),
       ("humidity", { correlation := 0, influence_score := 0, data := [] }),
       ("season", { correlation := 0, influence_score := 0, data := [] }),
       ("industry_structure", { correlation := 0, influence_score := 0, data := [] })]
    correlation_matrix := List.replicate 5 (List.replicate 5 1)
    ranking := []
    time_range := ("", "")
    summary := "数据量不足，使用默认影响因子"
    overall_score := none }

/-- Embedding of `InfluenceAnalyzer.analyze_factors_influence`.

`industryShare` is the `industry_structure_ratio` argument; `pearson`,
`dayOfYear` and `summarize` are the external pieces described in the
section comment.  The merged frame is built, the factor columns derived
(season is `dayofyear / 365`, industry structure the constant share), the
weather columns mean-imputed; with fewer than 10 merged rows the fixed
default is returned, otherwise the per-factor results (declaration order:
temperature, humidity, season, industry_structure — the structural factor
scored by the theoretical `min(share * 2, 1)` map instead of
correlation), the correlation matrix, the stable ranking, the time range
(minimum and maximum date) and the rounded overall mean score. -/
def analyze_factors_influence (pearson : List ℚ → List ℚ → ℚ × ℚ)
    (dayOfYear : String → ℕ) (summarize : List MergedRow → List RankEntry → String)
    (power : List (String × ℚ)) (weather : List (String × ℚ × ℚ))
    (industryShare : ℚ) : InfluenceResult :=
  let merged := mergeRows power weather
  let tempCol := fillnaMean (merged.map (fun r => r.temperature))
  let humCol := fillnaMean (merged.map (fun r => r.humidity))
  let seasonCol : List ℚ := merged.map (fun r => (dayOfYear r.ds : ℚ) / 365)
  let shareCol : List ℚ := merged.map (fun _ => industryShare)
  if merged.length < 10 then defaultResult
  else
    let powerCol := merged.map (fun r => r.y)
    let factorsData : List (String × List (Option ℚ)) :=
      [("temperature", tempCol), ("humidity", humCol),
       ("season", seasonCol.map some), ("industry_structure", shareCol.map some)]
    let factorsResult : List (String × FactorResult) :=
      factorsData.map (fun nf =>
        let ci :=
          if nf.1 = "industry_structure" then
            ((0 : ℚ), min (industryShare * 2) 1)
          else calculateFactorInfluence pearson powerCol nf.2
        (nf.1,
          { correlation := round4 ci.1
            influence_score := round4 ci.2
            data := (merged.zip nf.2).map (fun rv =>
              { date := rv.1.ds, power := rv.1.y, factor_value := rv.2 }) }))
    let ranking := generate_ranking factorsResult
    let dates := merged.map (fun r => r.ds)
    { factors := factorsResult
      correlation_matrix := correlationMatrix pearson
        ((powerCol.map some) :: tempCol :: humCol ::
          (seasonCol.map some) :: [shareCol.map some])
      ranking := ranking
      time_range := (dates.foldl min (dates.headD ""),
        dates.foldl max (dates.headD ""))
      summary := summarize merged ranking
      overall_score :=
        some (round4 (if ranking.isEmpty then 0
          else Util.mean (ranking.map (fun e => e.influence_score)))) }

end Influence

/-- C7: the influence ranking is sorted by influence score descending,
and the sort is stable — for every score value, the subsequence of
ranking entries carrying that score equals the corresponding subsequence
of the input, whose factors are listed in declaration order (temperature,
humidity, season, industry_structure); hence two factors with equal
influence score appear in the ranking in their declaration order. -/
theorem generate_ranking_stable
    (factors_result : List (String × Influence.FactorResult)) :
    Util.SortedDesc (fun e => e.influence_score)
      (Influence.generate_ranking factors_result) ∧
    ∀ c : ℚ,
      (Influence.generate_ranking factors_result).filter
          (fun e => decide (e.influence_score = c)) =
        (factors_result.map Influence.rankEntryOf).filter
          (fun e => decide (e.influence_score = c)) := by
  constructor
  · exact Util.sortDescBy_sorted _ _
  · intro c
    exact Util.filter_sortDescBy (fun e => e.influence_score) c
      (factors_result.map Influence.rankEntryOf)

/-- C8: whenever the merged power/weather frame has fewer than 10 rows,
the analyzer returns the fixed default result — all factor correlations
and influence scores 0 with empty data, empty ranking, low-confidence
summary — for every choice of the Pearson oracle, the calendar function
and the summarizer: no correlation or p-value computation can influence
the outcome. -/
theorem analyze_default_when_few_points
    (pearson : List ℚ → List ℚ → ℚ × ℚ) (dayOfYear : String → ℕ)
    (summarize : List Influence.MergedRow → List Influence.RankEntry → String)
    (power : List (String × ℚ)) (weather : List (String × ℚ × ℚ))
    (industryShare : ℚ)
    (h : (Influence.mergeRows power weather).length < 10) :
    Influence.analyze_factors_influence pearson dayOfYear summarize
      power weather industryShare = Influence.defaultResult := by
  simp only [Influence.analyze_factors_influence, if_pos h]

/-- Witness for the C8 theorem: a single power row and an empty weather
frame merge to one row. -/
theorem analyze_default_when_few_points_witness :
    (Influence.mergeRows [("2024-01-01", 5)] []).length < 10 ∧
    Influence.analyze_factors_influence (fun _ _ => (0, 1)) (fun _ => 1)
      (fun _ _ => "") [("2024-01-01", 5)] [] (3 / 10) =
      Influence.defaultResult :=
  ⟨by decide!,
    analyze_default_when_few_points (fun _ _ => (0, 1)) (fun _ => 1)
      (fun _ _ => "") [("2024-01-01", 5)] [] (3 / 10) (by decide!)⟩

namespace SessionStore

/-!
Embedding of the session data model (`app/schemas/session_schema.py`) and
of `Session.reset_for_new_query` (`app/core/session.py`, lines 254-276).

The Redis read-modify-write (`get` / `_save`) is embedded as a pure
transformation of the session record; `_save` stamps `updated_at` with
the current time, taken as the explicit `now` argument.  Float fields
are rationals, ISO timestamps and enums that the claims treat opaquely
are strings, and the conversation history is a list of (role, content)
pairs. -/

inductive SessionStatus
  | pending
  | processing
  | completed
  | error
deriving DecidableEq, Repr

structure TimeSeriesPoint where
  date : String
  value : ℚ
  is_prediction : Bool
deriving DecidableEq, Repr

structure NewsItem where
  title : String
  summary : String
  date : String
  source : String
  url : String
deriving DecidableEq, Repr

structure ReportItem where
  title : String
  summary : String
  pdf_path : String
deriving DecidableEq, Repr

structure StepDetail where
  id : String
  name : String
  status : String
  message : String
deriving DecidableEq, Repr

structure RAGSource where
  file_name : String
  page_number : ℕ
  score : ℚ
  content : String
deriving DecidableEq, Repr

structure IntentResult where
  intent : String
  reason : String
  tools : List (String × Bool)
  model : String
  params : List (String × ℕ)
deriving DecidableEq, Repr

/-- The `AnalysisSession` pydantic model, field for field. -/
structure AnalysisSession where
  session_id : String
  context : String
  steps : ℕ
  status : SessionStatus
  is_time_series : Bool
  intent : String
  intent_result : Option IntentResult
  total_steps : ℕ
  step_details : List StepDetail
  time_series_original : List TimeSeriesPoint
  time_series_full : List TimeSeriesPoint
  prediction_done : Bool
  prediction_start_day : Option String
  news_list : List NewsItem
  report_list : List ReportItem
  rag_sources : List RAGSource
  emotion : Option ℚ
  emotion_des : Option String
  conclusion : String
  conversation_history : List (String × String)
  created_at : String
  updated_at : String
  error_message : Option String
  stock_code : Option String
  model_name : String
deriving DecidableEq, Repr

/-- Embedding of `Session.reset_for_new_query`: the field assignments
performed between the `get` and the `_save`, plus the `updated_at` stamp
written by `_save`.  Every field the method does not assign is carried
over unchanged. -/
def reset_for_new_query (now : String) (s : AnalysisSession) : AnalysisSession :=
  { s with
    status := SessionStatus.pending
    steps := 0
    intent := "pending"
    intent_result := none
    total_steps := 0
    step_details := []
    time_series_original := []
    time_series_full := []
    prediction_done := false
    prediction_start_day := none
    news_list := []
    rag_sources := []
    emotion := none
    emotion_des := none
    conclusion := ""
    error_message := none
    updated_at := now }

end SessionStore

/-- C9: resetting a session for a new query sets the status back to
Pending, clears the step list (step_details and total_steps), all
accumulated results (original and full time series, news list, RAG
sources, emotion and its description, conclusion) and the error message,
and leaves the session id and the conversation history unchanged. -/
theorem reset_for_new_query_spec (now : String)
    (s : SessionStore.AnalysisSession) :
    (SessionStore.reset_for_new_query now s).status =
        SessionStore.SessionStatus.pending ∧
    (SessionStore.reset_for_new_query now s).steps = 0 ∧
    (SessionStore.reset_for_new_query now s).total_steps = 0 ∧
    (SessionStore.reset_for_new_query now s).step_details = [] ∧
    (SessionStore.reset_for_new_query now s).time_series_original = [] ∧
    (SessionStore.reset_for_new_query now s).time_series_full = [] ∧
    (SessionStore.reset_for_new_query now s).news_list = [] ∧
    (SessionStore.reset_for_new_query now s).rag_sources = [] ∧
    (SessionStore.reset_for_new_query now s).emotion = none ∧
    (SessionStore.reset_for_new_query now s).emotion_des = none ∧
    (SessionStore.reset_for_new_query now s).conclusion = "" ∧
    (SessionStore.reset_for_new_query now s).error_message = none ∧
    (SessionStore.reset_for_new_query now s).session_id = s.session_id ∧
    (SessionStore.reset_for_new_query now s).conversation_history =
      s.conversation_history := by
  repeat constructor

namespace StockSignal

/-!
Embedding of the zone pipeline of `StockSignalService`
(`generate_zones`, `calculate_daily_scores`, `adaptive_clustering`,
`fallback_top_points`, `calculate_impact`; lines 39-219 of
`app/services/stock_signal_service.py`).

`np.log1p` of the integer news count is transcendental and is taken as
the explicit parameter `log1p`; the news-count dictionary is the function
`news` from date strings to counts.  NaN cells (the head of a rolling
mean, pandas' `pct_change` seed) are `Option.none` until the source's own
`fillna(0)` turns them into zeros.  Two totalizations, both documented at
their definition: pandas raises on a 1-row frame (the `returns` column is
never created) and on a zero rolling window; the embedding returns
all-zero scores there.  Neither affects determinism, which is the
verified property of this pipeline. -/

/-- One input row of the zone pipeline: date, close, volume. -/
structure Row where
  date : String
  close : ℚ
  volume : ℚ
deriving DecidableEq, Repr

/-- One row after `calculate_daily_scores`: only the columns the rest of
the pipeline reads (date, returns, daily_score). -/
structure ScoredRow where
  date : String
  returns : ℚ
  daily_score : ℚ
deriving DecidableEq, Repr

/-- A zone as produced by clustering or fallback, before enrichment. -/
structure RawZone where
  start_idx : ℕ
  end_idx : ℕ
  startDate : String
  endDate : String
  avg_score : ℚ
  avg_return : ℚ
  zone_type : String
deriving DecidableEq, Repr

/-- A final zone after enrichment, with the positional indices popped. -/
structure Zone where
  startDate : String
  endDate : String
  avg_score : ℚ
  avg_return : ℚ
  zone_type : String
  impact : ℚ
  sentiment : String
deriving DecidableEq, Repr

/-- The `pct_change().fillna(0)` column: first entry 0 (pandas' NaN seed
filled with 0), then the relative change.  A zero previous close yields
an infinity in pandas and 0 here; no verified property reads that case. -/
def pctChange (xs : List ℚ) : List ℚ :=
  (List.range xs.length).map (fun i =>
    if i = 0 then 0 else (xs.getD i 0 - xs.getD (i - 1) 0) / xs.getD (i - 1) 0)

/-- The rolling mean of window `k`: NaN (`none`) on the first `k - 1`
entries, then the mean of the trailing `k` values. -/
def rollingMean (k : ℕ) (xs : List ℚ) : List (Option ℚ) :=
  (List.range xs.length).map (fun i =>
    if i + 1 < k then none
    else some (Util.mean ((xs.drop (i + 1 - k)).take k)))

/-- The min-max normalization step: when the column's (NaN-skipping)
maximum is positive, divide each cell by it (NaN stays NaN); otherwise
the source overwrites the whole column with the scalar 0.  An all-NaN
column has a NaN maximum, which fails the `> 0` test and lands in the
same zero branch. -/
def normalizeCol (xs : List (Option ℚ)) : List (Option ℚ) :=
  let mx := Util.listMax (xs.filterMap id)
  if 0 < mx then xs.map (fun x => x.map (fun v => v / mx))
  else xs.map (fun _ => some 0)

/-- Embedding of `calculate_daily_scores`.  With fewer than 2 rows the
source only attaches a zero `daily_score` column; on a nonempty such
frame the later `df["returns"]` access in `adaptive_clustering` raises a
KeyError in Python (absorbed by the caller's try/except) — the embedding
records zero returns there instead. -/
def calculate_daily_scores (log1p : ℕ → ℚ) (window : ℕ) (rows : List Row)
    (news : String → ℕ) : List ScoredRow :=
  if rows.length < 2 then
    rows.map (fun r => { date := r.date, returns := 0, daily_score := 0 })
  else
    let closes := rows.map (fun r => r.close)
    let vols := rows.map (fun r => r.volume)
    let rets := pctChange closes
    let volMean := Util.mean vols
    let repl := if 0 < volMean then volMean else 1
    let rolled := (rollingMean (min window rows.length) vols).map
      (Option.map (fun v => if v = 0 then repl else v))
    let volRel := (vols.zip rolled).map (fun vm => vm.2.map (fun m => vm.1 / m))
    let newsD := rows.map (fun r => log1p (news (r.date.take 10)))
    let absN := normalizeCol ((rets.map (fun x => |x|)).map some)
    let volN := normalizeCol volRel
    let newsN := normalizeCol (newsD.map some)
    (List.range rows.length).map (fun i =>
      { date := (rows.getD i { date := "", close := 0, volume := 0 }).date
        returns := rets.getD i 0
        daily_score := ((absN.getD i none).getD 0) * (4 / 10) +
          ((volN.getD i none).getD 0) * (3 / 10) +
          ((newsN.getD i none).getD 0) * (3 / 10) })

/-- Ascending sort of a rational column, `np.sort` inside
`np.percentile`. -/
def sortAsc (xs : List ℚ) : List ℚ := Util.sortDescBy (fun x => -x) xs

/-- `np.percentile` with the default linear interpolation: index
`h = (n - 1) * q / 100` into the ascending sort, interpolating between
the two neighbouring order statistics. -/
def percentile (xs : List ℚ) (q : ℚ) : ℚ :=
  let s := sortAsc xs
  if s.isEmpty then 0
  else
    let h := ((s.length : ℚ) - 1) * q / 100
    let i := Int.toNat ⌊h⌋
    let lo := s.getD i 0
    let hi := s.getD (i + 1) lo
    lo + (h - (⌊h⌋ : ℚ)) * (hi - lo)

/-- The forward zone-growing loop: keep extending the end `e` to `e + 1`
while the next score exceeds the low threshold and the zone, measured
from `zoneStart`, stays under the maximum duration.  `fuel` bounds the
recursion by the series length. -/
def expandF (scores : List ℚ) (tLow : ℚ) (maxDays zoneStart : ℕ) :
    ℕ → ℕ → ℕ
  | 0, e => e
  | fuel + 1, e =>
    if e + 1 < scores.length && decide (tLow < scores.getD (e + 1) 0)
        && decide (e + 1 - zoneStart < maxDays) then
      expandF scores tLow maxDays zoneStart fuel (e + 1)
    else e

/-- The backward zone-growing loop, the mirror image of `expandF`,
measured from the already-expanded `zoneEnd`. -/
def expandB (scores : List ℚ) (tLow : ℚ) (maxDays zoneEnd : ℕ) :
    ℕ → ℕ → ℕ
  | 0, s => s
  | fuel + 1, s =>
    if s = 0 then s
    else if decide (tLow < scores.getD (s - 1) 0)
        && decide (zoneEnd - (s - 1) < maxDays) then
      expandB scores tLow maxDays zoneEnd fuel (s - 1)
    else s

/-- The left-to-right scan of `adaptive_clustering`: open a zone when a
score exceeds the high threshold, grow it forward then backward, record
its averages, and resume past its end. -/
def clusterLoop (scores : List ℚ) (dates : List String) (rets : List ℚ)
    (tHigh tLow : ℚ) (maxDays : ℕ) : ℕ → ℕ → List RawZone
  | 0, _ => []
  | fuel + 1, i =>
    if i < scores.length then
      if tHigh < scores.getD i 0 then
        let ze := expandF scores tLow maxDays i scores.length i
        let zs := expandB scores tLow maxDays ze scores.length i
        { start_idx := zs
          end_idx := ze
          startDate := dates.getD zs ""
          endDate := dates.getD ze ""
          avg_score := Util.mean ((scores.drop zs).take (ze + 1 - zs))
          avg_return := Util.mean ((rets.drop zs).take (ze + 1 - zs))
          zone_type := "cluster" } ::
          clusterLoop scores dates rets tHigh tLow maxDays fuel (ze + 1)
      else clusterLoop scores dates rets tHigh tLow maxDays fuel (i + 1)
    else []

/-- Embedding of `adaptive_clustering`: derive the adaptive thresholds
from the trailing lookback window (fixed 0.8/0.6 with fewer than 10
scores; otherwise the 95th/85th percentiles floored at 0.3/0.2), then
scan.  The embedded `daily_score` column never carries NaN — the source
builds it out of `fillna(0)` pieces — so the NaN filter on `valid_scores`
is the identity.  Python's `scores[-lookback:]` with `lookback = 0` is
the whole list, made explicit here. -/
def adaptive_clustering (lookback maxDays : ℕ) (scored : List ScoredRow) :
    List RawZone :=
  if scored.isEmpty then []
  else
    let scores := scored.map (fun r => r.daily_score)
    let dates := scored.map (fun r => r.date.take 10)
    let rets := scored.map (fun r => r.returns)
    let th :=
      if scores.length < 10 then ((8 : ℚ) / 10, (6 : ℚ) / 10)
      else
        let recent :=
          if scores.length > lookback then
            (if lookback = 0 then scores
             else scores.drop (scores.length - lookback))
          else scores
        (max (percentile recent 95) (3 / 10),
          max (percentile recent 85) (2 / 10))
    clusterLoop scores dates rets th.1 th.2 maxDays scores.length 0

/-- Embedding of `fallback_top_points`: the `k` highest-score rows
(`nlargest`, keeping the first of equal scores) as degenerate one-point
zones. -/
def fallback_top_points (scored : List ScoredRow) (k : ℕ) : List RawZone :=
  if scored.isEmpty || scored.length < k then []
  else
    ((Util.sortDescBy (fun p => p.2.daily_score) scored.enum).take k).map
      (fun p =>
        { start_idx := p.1
          end_idx := p.1
          startDate := p.2.date.take 10
          endDate := p.2.date.take 10
          avg_score := p.2.daily_score
          avg_return := p.2.returns
          zone_type := "fallback" })

/-- Embedding of `calculate_impact`. -/
def calculate_impact (z : RawZone) (maxScore : ℚ) : ℚ :=
  if maxScore ≤ 0 then 1 / 2
  else max (min (z.avg_score / maxScore) 1) (3 / 10)

/-- Embedding of `generate_zones`: score, cluster, fall back to the top-2
single points when no cluster forms (tagging the result as a calm
regime), enrich with impact and sentiment, stable-sort by impact
descending, truncate to 10 and drop the positional indices. -/
def generate_zones (log1p : ℕ → ℚ) (window lookback maxDays : ℕ)
    (rows : List Row) (news : String → ℕ) : List Zone :=
  let scored := calculate_daily_scores log1p window rows news
  let clustered := adaptive_clustering lookback maxDays scored
  let zi :=
    if clustered.isEmpty then (fallback_top_points scored 2, true)
    else (clustered, false)
  let maxScore :=
    if scored.isEmpty then 1
    else Util.listMax (scored.map (fun r => r.daily_score))
  let enriched := zi.1.map (fun z => (z, calculate_impact z maxScore))
  ((Util.sortDescBy (fun p => p.2) enriched).take 10).map (fun p =>
    { startDate := p.1.startDate
      endDate := p.1.endDate
      avg_score := p.1.avg_score
      avg_return := p.1.avg_return
      zone_type := if zi.2 then "calm" else p.1.zone_type
      impact := p.2
      sentiment := if (0 : ℚ) ≤ p.1.avg_return then "positive" else "negative" })

end StockSignal

/-- C10: generate_zones is deterministic — two calls with the same input
frame, the same news counts and the same configuration (window, lookback,
max zone days, and the same log1p table) return identical zone lists, in
content and order.  The embedding exhibits the whole pipeline (scoring,
adaptive thresholds, zone growing, fallback, enrichment, sorting) as a
pure function of its inputs: no randomness, clock or ambient state is
consulted anywhere on this path. -/
theorem generate_zones_deterministic (log1p : ℕ → ℚ)
    (window lookback maxDays : ℕ) (df1 df2 : List StockSignal.Row)
    (news1 news2 : String → ℕ)
    (hdf : df1 = df2) (hnews : ∀ d, news1 d = news2 d) :
    StockSignal.generate_zones log1p window lookback maxDays df1 news1 =
      StockSignal.generate_zones log1p window lookback maxDays df2 news2 := by
  subst hdf
  have hfun : news1 = news2 := funext hnews
  rw [hfun]

/-- Witness for the C10 theorem at a concrete two-row frame. -/
theorem generate_zones_deterministic_witness :
    ([({ date := "2024-01-01", close := 100, volume := 10 } : StockSignal.Row),
      { date := "2024-01-02", close := 150, volume := 12 }] =
     [({ date := "2024-01-01", close := 100, volume := 10 } : StockSignal.Row),
      { date := "2024-01-02", close := 150, volume := 12 }]) ∧
    (∀ d : String, (fun _ : String => (1 : ℕ)) d = (fun _ : String => (1 : ℕ)) d) ∧
    StockSignal.generate_zones (fun n => (n : ℚ)) 20 60 10
        [{ date := "2024-01-01", close := 100, volume := 10 },
         { date := "2024-01-02", close := 150, volume := 12 }]
        (fun _ => 1) =
      StockSignal.generate_zones (fun n => (n : ℚ)) 20 60 10
        [{ date := "2024-01-01", close := 100, volume := 10 },
         { date := "2024-01-02", close := 150, volume := 12 }]
        (fun _ => 1) :=
  ⟨rfl, fun _ => rfl,
    generate_zones_deterministic (fun n => (n : ℚ)) 20 60 10 _ _ _ _ rfl
      (fun _ => rfl)⟩

namespace Streaming

/-!
Embedding of `StreamingTaskProcessor.execute_streaming` and its two
sub-flows (`app/core/streaming_task_processor.py`), at the granularity of
the emitted event sequence and the final message-store state.

What is concrete: the whole control flow of `execute_streaming` — the
intent step, the out-of-scope return, the region-verification step and
its error return, the dispatch to the forecast or chat flow, the three
data-fetch failure returns at the head of `_execute_forecast_streaming`,
the final mark-completed / `done` emission, and the top-level exception
handler.  What is abstracted: the outcome of each external collaborator
(classifier, region matcher, data fetch) arrives in an `Env` record, and
the long tail of the forecast flow after the data guards (news, zones,
influence, forecast, report — hundreds of lines that either absorb their
own errors in local try/except blocks or raise to the top-level handler)
is represented by the events it emits (`restEvents`) plus the exception,
if any, that escapes it (`restRaises`); likewise `chatEvents`,
`chatRaises`, `chatAnswer` for the chat flow.  The session writes those
abstracted stretches perform are not modelled — no verified property
reads them.

The `Message` store class is imported from `app.core.session` but is
absent from the sources (only `Session` is present).  Its state is
modelled from the spec's Task/Session data model and from `Session`'s
same-named methods: `mark_completed` sets status Completed,
`mark_error` sets status Error and the error message,
`update_step_detail` logs the step update and sets status Processing,
`save_conclusion` stores the conclusion; `stream_status` is the field
assigned directly by `_update_stream_status` in the processor source. -/

/-- The discriminated union of emitted events, one constructor per
`type` tag this part of the processor emits. -/
inductive Ev
  | stepStart (step : ℕ) (name : String)
  | stepComplete (step : ℕ)
  | intentEv (intent : String) (isForecast : Bool)
  | thinking (content : String)
  | chatChunk (content : String)
  | dataEv (dataType : String)
  | modelSelection (model : String)
  | reportChunk (content : String)
  | errorEv (msg : String)
  | done
deriving DecidableEq, Repr

/-- Modelled from the spec: the mutable state of the per-message record
(the `Message` class is missing from the sources; see the section
comment). -/
structure MsgState where
  status : SessionStore.SessionStatus
  streamStatus : String
  conclusion : String
  errorMessage : Option String
  stepLog : List (ℕ × String × String)
deriving DecidableEq, Repr

/-- The fresh message state at the start of a run. -/
def initMsg : MsgState :=
  { status := SessionStore.SessionStatus.pending, streamStatus := ""
    conclusion := "", errorMessage := none, stepLog := [] }

/-- Modelled from the spec: `Message.update_step_detail`, after
`Session.update_step_detail` — records the step update and moves the
record to Processing. -/
def updateStepDetail (st : MsgState) (step : ℕ) (status msg : String) :
    MsgState :=
  { st with status := SessionStore.SessionStatus.processing
            stepLog := st.stepLog ++ [(step, status, msg)] }

/-- Modelled from the spec: `Message.save_conclusion`. -/
def saveConclusion (st : MsgState) (c : String) : MsgState :=
  { st with conclusion := c }

/-- Modelled from the spec: `Message.mark_completed`, after
`Session.mark_completed` — sets status Completed. -/
def markCompleted (st : MsgState) : MsgState :=
  { st with status := SessionStore.SessionStatus.completed }

/-- Modelled from the spec: `Message.mark_error`, after
`Session.mark_error` — sets status Error and stores the message. -/
def markError (st : MsgState) (m : String) : MsgState :=
  { st with status := SessionStore.SessionStatus.error
            errorMessage := some m }

/-- The processor's own `_update_stream_status`: assigns the
`stream_status` field of the record. -/
def updateStreamStatus (st : MsgState) (s : String) : MsgState :=
  { st with streamStatus := s }

/-- Modelled from the spec: the classifier's structured result
(`UnifiedIntent` is imported from the session schema but missing from the
sources); only the fields the embedded control flow reads.  A falsy
(empty) string field is `none`. -/
structure UnifiedIntent where
  is_forecast : Bool
  is_in_scope : Bool
  out_of_scope_reply : Option String
  region_mention : Option String
  stock_mention : Option String
  region_name : Option String
  stock_full_name : Option String
deriving DecidableEq, Repr

/-- The resolved region of a successful match. -/
structure RegionInfo where
  region_name : String
  region_code : String
deriving DecidableEq, Repr

/-- Modelled from the spec: `RegionMatchResult` as constructed by
`RegionMatcher.match` (the class itself is missing from the schema
sources). -/
structure RegionMatchResult where
  matched : Bool
  region_info : Option RegionInfo
deriving DecidableEq, Repr

/-- Outcome of the awaited power-data fetch: a typed `DataFetchError`, a
generic exception, or a frame with the given number of rows (0 rows is
pandas' empty frame).  The `fetchErr` payload is the explanation string
the error-explainer agent returns for it. -/
inductive PowerOutcome
  | fetchErr (explanation : String)
  | exc (msg : String)
  | ok (dfLen : ℕ)
deriving DecidableEq, Repr

/-- The environment of one run: every external outcome the embedded
control flow consults, plus the event/exception abstraction of the two
flow tails (see the section comment). -/
structure Env where
  user_input : String
  intentResult : Option UnifiedIntent
  thinkingChunks : List String
  regionMatch : Option RegionMatchResult
  powerOutcome : PowerOutcome
  restEvents : List Ev
  restRaises : Option String
  chatEvents : List Ev
  chatRaises : Option String
  chatAnswer : String
deriving Repr

/-- The unresolved-region error message built at line 229 of the
processor, naming the query. -/
def unresolvedRegionMsg (q : String) : String :=
  "未找到区域「" ++ q ++ "」，请检查区域名称是否正确。支持的区域: 北京、上海、广州、深圳、杭州、成都、武汉、西安、南京、天津"

/-- The empty-frame error message of `_execute_forecast_streaming`. -/
def noDataMsg (region : String) : String :=
  "无法获取 " ++ region ++ " 的历史供电需求数据，请检查区域名称是否正确。"

/-- Embedding of `_execute_forecast_streaming`: Step 3 starts, the power
fetch outcome is examined — a `DataFetchError`, a generic exception or an
empty frame each save an error conclusion, mark step 3 error, emit an
error event and return (the sibling news/RAG tasks are cancelled); a
nonempty frame saves the original series (a session write no verified
property reads) and emits it, then continues into the abstracted
remainder.  The third component is the exception escaping the flow,
`none` on every return. -/
def executeForecastStreaming (env : Env) (regionInfo : Option RegionInfo)
    (st : MsgState) : List Ev × MsgState × Option String :=
  let regionName := (regionInfo.map (fun ri => ri.region_name)).getD env.user_input
  let evs : List Ev := [Ev.stepStart 3 "数据获取"]
  let st := updateStepDetail st 3 "running" "获取历史数据和新闻..."
  match env.powerOutcome with
  | PowerOutcome.fetchErr expl =>
    let st := saveConclusion st expl
    let st := updateStepDetail st 3 "error" "数据获取失败"
    (evs ++ [Ev.errorEv expl], st, none)
  | PowerOutcome.exc m =>
    let msg := "获取数据时发生错误: " ++ m
    let st := saveConclusion st msg
    let st := updateStepDetail st 3 "error" "数据获取失败"
    (evs ++ [Ev.errorEv msg], st, none)
  | PowerOutcome.ok 0 =>
    let msg := noDataMsg regionName
    let st := saveConclusion st msg
    let st := updateStepDetail st 3 "error" "数据获取失败"
    (evs ++ [Ev.errorEv msg], st, none)
  | PowerOutcome.ok (_ + 1) =>
    (evs ++ [Ev.dataEv "time_series_original"] ++ env.restEvents, st,
      env.restRaises)

/-- Embedding of `_execute_chat_streaming`: the info-gathering step, then
(when nothing raises) the answer step — its streamed chat chunks
abstracted as `chatEvents`, ending with the chunk carrying the full
answer — the saved conclusion and the step completions.  The step
messages that interpolate the fetched source list are carried as their
fixed prefixes; no verified property reads them. -/
def executeChatStreaming (env : Env) (stepNum : ℕ) (st : MsgState) :
    List Ev × MsgState × Option String :=
  let evs : List Ev := [Ev.stepStart stepNum "信息获取"]
  let st := updateStepDetail st stepNum "running" "获取相关信息..."
  match env.chatRaises with
  | some e => (evs ++ env.chatEvents, st, some e)
  | none =>
    let st := updateStepDetail st stepNum "completed" "获取完成"
    let st' := updateStepDetail st (stepNum + 1) "running" "生成回答..."
    let st'' := saveConclusion st' env.chatAnswer
    let st3 := updateStepDetail st'' (stepNum + 1) "completed" "回答完成"
    (evs ++
      [Ev.stepComplete stepNum, Ev.stepStart (stepNum + 1) "生成回答"] ++
      env.chatEvents ++
      [Ev.chatChunk env.chatAnswer, Ev.stepComplete (stepNum + 1)],
      st3, none)

/-- The shared tail of `execute_streaming` around the flow dispatch: run
the forecast or chat flow; when it returns (normally or through one of
its early error returns) mark the record Completed, set the stream
status, and emit `done`; when it raised, propagate the exception. -/
def dispatchBranch (env : Env) (intent : UnifiedIntent)
    (regionInfo : Option RegionInfo) (st : MsgState) (evs : List Ev) :
    List Ev × MsgState × Option String :=
  let br :=
    if intent.is_forecast then executeForecastStreaming env regionInfo st
    else
      executeChatStreaming env
        (if (intent.region_mention.or intent.stock_mention).isSome then 3 else 2)
        st
  match br with
  | (bevs, bst, some e) => (evs ++ bevs, bst, some e)
  | (bevs, bst, none) =>
    let bst := markCompleted bst
    let bst := updateStreamStatus bst "completed"
    (evs ++ bevs ++ [Ev.done], bst, none)

/-- The unresolved-region return of `execute_streaming` (lines 228-235):
save the error conclusion, mark step 2 error, mark the record completed,
set the stream status to "error", emit the error event and return — with
no `done` event. -/
def unresolvedRegionReturn (queryName : String) (evs : List Ev)
    (st : MsgState) : List Ev × MsgState × Option String :=
  let errorMsg := unresolvedRegionMsg queryName
  let st := saveConclusion st errorMsg
  let st := updateStepDetail st 2 "error" errorMsg
  let st := markCompleted st
  let st := updateStreamStatus st "error"
  (evs ++ [Ev.errorEv errorMsg], st, none)

/-- The body of the `try` block of `execute_streaming`: Step 1 with its
streamed thinking, the classification-failure return, the out-of-scope
return, Step 2 region verification with its error return, and the
dispatch.  The third component is the exception reaching the top-level
handler, if any. -/
def executeBody (env : Env) (st : MsgState) :
    List Ev × MsgState × Option String :=
  let evs : List Ev := [Ev.stepStart 1 "意图识别"]
  let st := updateStepDetail st 1 "running" "分析用户意图..."
  let evs := evs ++ env.thinkingChunks.map Ev.thinking
  match env.intentResult with
  | none => (evs ++ [Ev.errorEv "意图识别失败"], st, none)
  | some intent =>
    let evs := evs ++
      [Ev.intentEv (if intent.is_forecast then "forecast" else "chat")
        intent.is_forecast]
    if intent.is_in_scope = false then
      let reply := intent.out_of_scope_reply.getD
        "抱歉，我是金融时序分析助手，暂不支持此类问题。"
      let st := saveConclusion st reply
      let st := updateStepDetail st 1 "completed" "超出服务范围"
      let st := markCompleted st
      let st := updateStreamStatus st "completed"
      (evs ++ [Ev.chatChunk reply, Ev.done], st, none)
    else
      let evs := evs ++ [Ev.stepComplete 1]
      let st := updateStepDetail st 1 "completed"
        (if intent.is_forecast then "意图: 预测" else "意图: 对话")
      match intent.region_mention.or intent.stock_mention with
      | some m =>
        let queryName := (intent.region_name.or intent.stock_full_name).getD m
        let evs := evs ++ [Ev.stepStart 2 "区域验证"]
        let st := updateStepDetail st 2 "running" ("验证区域: " ++ queryName)
        match env.regionMatch with
        | none => unresolvedRegionReturn queryName evs st
        | some r =>
          if r.matched = false then unresolvedRegionReturn queryName evs st
          else
            let evs := evs ++ [Ev.stepComplete 2]
            let st := updateStepDetail st 2 "completed"
              (match r.region_info with
               | some ri => "匹配: " ++ ri.region_name ++ "(" ++ ri.region_code ++ ")"
               | none => "无匹配")
            dispatchBranch env intent r.region_info st evs
      | none => dispatchBranch env intent none st evs

/-- Embedding of `execute_streaming`: set the stream status, run the try
body, and on an escaped exception run the handler — mark the record
Error, set the stream status to "error" and emit an error event (and no
`done`). -/
def executeStreaming (env : Env) : List Ev × MsgState :=
  let st := updateStreamStatus initMsg "streaming"
  match executeBody env st with
  | (evs, st', none) => (evs, st')
  | (evs, st', some e) =>
    let st'' := updateStreamStatus (markError st' e) "error"
    (evs ++ [Ev.errorEv e], st'')

end Streaming

namespace Streaming

/-- A run whose classification fails: the classifier resolves to no
structured intent. -/
def envClassFail : Env :=
  { user_input := "北京", intentResult := none, thinkingChunks := [],
    regionMatch := none, powerOutcome := PowerOutcome.ok 0,
    restEvents := [], restRaises := none, chatEvents := [],
    chatRaises := none, chatAnswer := "" }

/-- A run whose classified intent mentions the unresolvable region
"火星" (Mars): the region matcher returns no match. -/
def envBadRegion : Env :=
  { user_input := "火星的供电需求",
    intentResult := some
      { is_forecast := true, is_in_scope := true, out_of_scope_reply := none,
        region_mention := some "火星", stock_mention := none,
        region_name := some "火星", stock_full_name := none },
    thinkingChunks := [], regionMatch := none,
    powerOutcome := PowerOutcome.ok 0, restEvents := [],
    restRaises := none, chatEvents := [], chatRaises := none,
    chatAnswer := "" }

/-- A run with a resolved region whose structurally-required power fetch
fails with a `DataFetchError`. -/
def envFetchFail : Env :=
  { user_input := "北京的供电需求",
    intentResult := some
      { is_forecast := true, is_in_scope := true, out_of_scope_reply := none,
        region_mention := some "北京", stock_mention := none,
        region_name := some "北京", stock_full_name := none },
    thinkingChunks := [],
    regionMatch := some
      { matched := true,
        region_info := some { region_name := "北京", region_code := "BJ" } },
    powerOutcome := PowerOutcome.fetchErr "暂时无法获取北京的供电数据",
    restEvents := [], restRaises := none, chatEvents := [],
    chatRaises := none, chatAnswer := "" }

theorem dispatchBranch_done (env : Env) (intent : UnifiedIntent)
    (regionInfo : Option RegionInfo) (st : MsgState) (evs : List Ev)
    (hrest : env.restRaises = none) (hchat : env.chatRaises = none) :
    (dispatchBranch env intent regionInfo st evs).2.2 = none ∧
    Ev.done ∈ (dispatchBranch env intent regionInfo st evs).1 := by
  by_cases hf : intent.is_forecast = true
  · simp only [dispatchBranch, if_pos hf, executeForecastStreaming]
    rcases hp : env.powerOutcome with expl | msg | n
    · simp
    · simp
    · rcases n with _ | k
      · simp
      · simp [hrest]
  · simp only [dispatchBranch, if_neg hf, executeChatStreaming, hchat]
    simp

theorem executeBody_done (env : Env) (st : MsgState) (it : UnifiedIntent)
    (hit : env.intentResult = some it)
    (hregion : (it.region_mention.or it.stock_mention).isSome = true →
      ∃ r, env.regionMatch = some r ∧ r.matched = true)
    (hrest : env.restRaises = none) (hchat : env.chatRaises = none) :
    (executeBody env st).2.2 = none ∧ Ev.done ∈ (executeBody env st).1 := by
  simp only [executeBody, hit]
  by_cases hscope : it.is_in_scope = false
  · rw [if_pos hscope]
    simp
  · rw [if_neg hscope]
    rcases hm : it.region_mention.or it.stock_mention with _ | m
    · simp only [hm]
      exact dispatchBranch_done env it none _ _ hrest hchat
    · simp only [hm]
      rcases hregion (by rw [hm]; rfl) with ⟨r, hr, hmatched⟩
      rw [hr]
      simp only []
      rw [if_neg (by rw [hmatched]; simp)]
      exact dispatchBranch_done env it r.region_info _ _ hrest hchat

end Streaming

/-- C1, counterexample: a run whose classification fails emits exactly
the step-start event and an error event — no `done` event is ever
emitted, because the classification-failure branch of
`execute_streaming` emits the error and returns before the code that
emits `done`. -/
theorem done_after_classification_failure_counterexample :
    (Streaming.executeStreaming Streaming.envClassFail).1 =
      [Streaming.Ev.stepStart 1 "意图识别",
       Streaming.Ev.errorEv "意图识别失败"] ∧
    Streaming.Ev.done ∉ (Streaming.executeStreaming Streaming.envClassFail).1 := by
  constructor
  · rfl
  · decide

/-- C1, amended: every terminating run in which classification resolved
to an intent, any mentioned region resolved, and no unhandled exception
escaped a flow emits a `done` event — including runs ending in a
structural data-fetch failure, whose early return still reaches the
`done` emission in the caller.  Runs ending in classification failure or
an unresolved region, and runs aborted by an unhandled exception, emit a
final error event with no `done`. -/
theorem done_emitted_of_no_fatal (env : Streaming.Env)
    (hintent : env.intentResult.isSome = true)
    (hregion : ∀ it : Streaming.UnifiedIntent, env.intentResult = some it →
      (it.region_mention.or it.stock_mention).isSome = true →
      ∃ r, env.regionMatch = some r ∧ r.matched = true)
    (hrest : env.restRaises = none)
    (hchat : env.chatRaises = none) :
    Streaming.Ev.done ∈ (Streaming.executeStreaming env).1 := by
  rcases hI : env.intentResult with _ | it
  · rw [hI] at hintent; simp at hintent
  · have hbody := Streaming.executeBody_done env
      (Streaming.updateStreamStatus Streaming.initMsg "streaming") it hI
      (hregion it hI) hrest hchat
    simp only [Streaming.executeStreaming]
    rcases hb : Streaming.executeBody env
        (Streaming.updateStreamStatus Streaming.initMsg "streaming") with
      ⟨evs, st', o⟩
    rw [hb] at hbody
    rcases hbody with ⟨ho, hdone⟩
    simp only at ho hdone
    subst ho
    exact hdone

/-- Witness for the C1 amended theorem: a run whose power fetch fails
structurally still emits `done`. -/
theorem done_emitted_of_no_fatal_witness :
    (Streaming.envFetchFail.intentResult.isSome = true ∧
      (∀ it : Streaming.UnifiedIntent,
        Streaming.envFetchFail.intentResult = some it →
        (it.region_mention.or it.stock_mention).isSome = true →
        ∃ r, Streaming.envFetchFail.regionMatch = some r ∧ r.matched = true) ∧
      Streaming.envFetchFail.restRaises = none ∧
      Streaming.envFetchFail.chatRaises = none) ∧
    Streaming.Ev.done ∈ (Streaming.executeStreaming Streaming.envFetchFail).1 :=
  ⟨⟨rfl, fun _ _ _ => ⟨_, rfl, rfl⟩, rfl, rfl⟩,
    done_emitted_of_no_fatal Streaming.envFetchFail rfl
      (fun _ _ _ => ⟨_, rfl, rfl⟩) rfl rfl⟩

/-- C2, counterexample: on a query mentioning the unresolvable region
"火星", the run ends with the error event as its last emission and no
`done` event ever follows it; moreover the record's status is marked
Completed (by `mark_completed`), not Error — only the stream-status
field reads "error". -/
theorem unresolved_region_counterexample :
    Streaming.Ev.done ∉ (Streaming.executeStreaming Streaming.envBadRegion).1 ∧
    (Streaming.executeStreaming Streaming.envBadRegion).1.getLast? =
      some (Streaming.Ev.errorEv (Streaming.unresolvedRegionMsg "火星")) ∧
    (Streaming.executeStreaming Streaming.envBadRegion).2.status =
      SessionStore.SessionStatus.completed := by
  refine ⟨by decide, rfl, rfl⟩

/-- C2, amended: for every run whose in-scope intent mentions a region
that the matcher cannot resolve (no result, or an unmatched one), the
emitted sequence is exactly the intent step followed by the
region-verification step ending in an error event whose message names
the unresolved region; no `done` event is emitted; the stored conclusion
is that message; the stream status is "error"; and the record status is
Completed (the source calls `mark_completed` on this path), not
Error. -/
theorem unresolved_region_outcome (env : Streaming.Env)
    (it : Streaming.UnifiedIntent) (m : String)
    (hit : env.intentResult = some it)
    (hscope : it.is_in_scope = true)
    (hm : it.region_mention.or it.stock_mention = some m)
    (hmatch : env.regionMatch = none ∨
      ∃ r, env.regionMatch = some r ∧ r.matched = false) :
    (Streaming.executeStreaming env).1 =
      [Streaming.Ev.stepStart 1 "意图识别"] ++
        env.thinkingChunks.map Streaming.Ev.thinking ++
        [Streaming.Ev.intentEv
            (if it.is_forecast then "forecast" else "chat") it.is_forecast,
          Streaming.Ev.stepComplete 1,
          Streaming.Ev.stepStart 2 "区域验证",
          Streaming.Ev.errorEv (Streaming.unresolvedRegionMsg
            ((it.region_name.or it.stock_full_name).getD m))] ∧
    Streaming.Ev.done ∉ (Streaming.executeStreaming env).1 ∧
    (Streaming.executeStreaming env).2.conclusion =
      Streaming.unresolvedRegionMsg
        ((it.region_name.or it.stock_full_name).getD m) ∧
    (Streaming.executeStreaming env).2.streamStatus = "error" ∧
    (Streaming.executeStreaming env).2.status =
      SessionStore.SessionStatus.completed := by
  have hbody : Streaming.executeBody env
      (Streaming.updateStreamStatus Streaming.initMsg "streaming") =
      Streaming.unresolvedRegionReturn
        ((it.region_name.or it.stock_full_name).getD m)
        (([Streaming.Ev.stepStart 1 "意图识别"] ++
          env.thinkingChunks.map Streaming.Ev.thinking ++
          [Streaming.Ev.intentEv
              (if it.is_forecast then "forecast" else "chat") it.is_forecast,
            Streaming.Ev.stepComplete 1,
            Streaming.Ev.stepStart 2 "区域验证"]))
        (Streaming.updateStepDetail
          (Streaming.updateStepDetail
            (Streaming.updateStepDetail
              (Streaming.updateStreamStatus Streaming.initMsg "streaming")
              1 "running" "分析用户意图...")
            1 "completed" (if it.is_forecast then "意图: 预测" else "意图: 对话"))
          2 "running"
          ("验证区域: " ++ ((it.region_name.or it.stock_full_name).getD m))) := by
    simp only [Streaming.executeBody, hit]
    rw [if_neg (by rw [hscope]; simp)]
    simp only [hm]
    rcases hmatch with hnone | ⟨r, hr, hmatched⟩
    · rw [hnone]
      simp [List.append_assoc]
    · rw [hr]
      simp only []
      rw [if_pos hmatched]
      simp [List.append_assoc]
  simp only [Streaming.executeStreaming]
  rw [hbody]
  simp only [Streaming.unresolvedRegionReturn, Streaming.saveConclusion,
    Streaming.updateStepDetail, Streaming.markCompleted,
    Streaming.updateStreamStatus]
  refine ⟨by simp, by simp, by simp, by simp, by simp⟩

/-- Witness for the C2 amended theorem at the concrete Mars query. -/
theorem unresolved_region_outcome_witness :
    (Streaming.envBadRegion.intentResult = some
        { is_forecast := true, is_in_scope := true, out_of_scope_reply := none,
          region_mention := some "火星", stock_mention := none,
          region_name := some "火星", stock_full_name := none } ∧
      (Streaming.envBadRegion.regionMatch = none ∨
        ∃ r, Streaming.envBadRegion.regionMatch = some r ∧ r.matched = false)) ∧
    (Streaming.executeStreaming Streaming.envBadRegion).2.conclusion =
      Streaming.unresolvedRegionMsg "火星" ∧
    (Streaming.executeStreaming Streaming.envBadRegion).2.streamStatus = "error" ∧
    (Streaming.executeStreaming Streaming.envBadRegion).2.status =
      SessionStore.SessionStatus.completed ∧
    Streaming.Ev.done ∉ (Streaming.executeStreaming Streaming.envBadRegion).1 :=
  ⟨⟨rfl, Or.inl rfl⟩,
    (unresolved_region_outcome Streaming.envBadRegion _ "火星" rfl rfl rfl
      (Or.inl rfl)).2.2.1,
    (unresolved_region_outcome Streaming.envBadRegion _ "火星" rfl rfl rfl
      (Or.inl rfl)).2.2.2.1,
    (unresolved_region_outcome Streaming.envBadRegion _ "火星" rfl rfl rfl
      (Or.inl rfl)).2.2.2.2,
    (unresolved_region_outcome Streaming.envBadRegion _ "火星" rfl rfl rfl
      (Or.inl rfl)).2.1⟩
